import Mathlib

/-!
Verification of the query-execution and result-shaping layer of
dj-postgres-mcp (src/features/database/QueryExecutor.ts,
src/features/shared/errors.ts, and the execute_query tool handler).

The TypeScript code is shallowly embedded: JavaScript runtime values are
modelled by `JSValue`, the `pg` client is modelled as a function from a
query text and a parameter list to an engine outcome, and wall-clock
readings (`Date.now()`) are passed in as explicit integer timestamps.
-/

namespace DjPostgres

/-! ## JavaScript value model -/

/-- A JavaScript runtime value, as relevant to the argument validation and
result shaping performed by the database layer. Numbers are modelled as
integers (the code only compares them with `typeof` and truthiness). -/
inductive JSValue where
  | str (s : String)
  | num (n : Int)
  | bool (b : Bool)
  | null
  | undef
  | arr (elems : List JSValue)
  | obj (fields : List (String × JSValue))

/-- JavaScript truthiness: `""`, `0`, `false`, `null`, `undefined` are falsy;
every array and object is truthy. -/
def jsTruthy : JSValue → Bool
  | .str s => !(s == "")
  | .num n => !(n == 0)
  | .bool b => b
  | .null => false
  | .undef => false
  | .arr _ => true
  | .obj _ => true

/-- The JavaScript `typeof` operator (`typeof null` is `"object"`). -/
def jsTypeof : JSValue → String
  | .str _ => "string"
  | .num _ => "number"
  | .bool _ => "boolean"
  | .null => "object"
  | .undef => "undefined"
  | .arr _ => "object"
  | .obj _ => "object"

/-- `Array.isArray`. -/
def jsIsArray : JSValue → Bool
  | .arr _ => true
  | _ => false

/-- The `param !== null` check of the handler's element validation. -/
def jsIsNull : JSValue → Bool
  | .null => true
  | _ => false

/-- JavaScript `String.prototype.includes`: substring containment. -/
def jsIncludes (s pat : String) : Bool :=
  decide (pat.data <:+: s.data)

/-- JavaScript `s.substring(0, n)`: the prefix of at most `n` characters. -/
def jsSubstringTo (s : String) (n : Nat) : String :=
  ⟨s.data.take n⟩

/-- JavaScript `v || d` on an optional string: `undefined`/`null` and the
empty string are falsy and yield the default. -/
def jsOrString (v : Option String) (d : String) : String :=
  match v with
  | none => d
  | some s => if s = "" then d else s

/-- JavaScript `v || d` on an optional number: `undefined`/`null` and `0`
are falsy and yield the default. -/
def jsOrInt (v : Option Int) (d : Int) : Int :=
  match v with
  | none => d
  | some n => if n = 0 then d else n

/-- JavaScript `params || []` on the optional parameter array of
`executeQuery`: a present array is truthy (even when empty), an absent
value yields the empty list. -/
def jsOrParams (params : Option (List JSValue)) : List JSValue :=
  match params with
  | none => []
  | some l => l

/-! ## Error model (src/features/shared/errors.ts) -/

/-- The `details` payloads the database layer attaches to a `ManagedError`:
a truncated copy of the offending SQL and, for generic failures, the
elapsed time at failure. -/
structure ErrorDetails where
  query : Option String
  executionTime : Option Int
  deriving Repr, DecidableEq

/-- `ManagedError`: a classified error carrying a taxonomy code, a
human-readable message, and an optional details record. -/
structure ManagedError where
  code : String
  message : String
  details : Option ErrorDetails
  deriving Repr, DecidableEq

namespace ErrorCodes

def INVALID_CONNECTION_STRING : String := "INVALID_CONNECTION_STRING"

def CONNECTION_FAILED : String := "CONNECTION_FAILED"

def AUTHENTICATION_FAILED : String := "AUTHENTICATION_FAILED"

def QUERY_ERROR : String := "QUERY_ERROR"

def TIMEOUT : String := "TIMEOUT"

def PERMISSION_DENIED : String := "PERMISSION_DENIED"

def TABLE_NOT_FOUND : String := "TABLE_NOT_FOUND"

def INVALID_PARAMS : String := "INVALID_PARAMS"

def NO_CONNECTION : String := "NO_CONNECTION"

end ErrorCodes

/-! ## Type catalog (PG_DATA_TYPES) -/

/-- The fixed OID-to-type-name table at the top of QueryExecutor.ts. -/
def PG_DATA_TYPES : List (Nat × String) :=
  [ (16, "bool"),
    (17, "bytea"),
    (18, "char"),
    (19, "name"),
    (20, "int8"),
    (21, "int2"),
    (23, "int4"),
    (25, "text"),
    (26, "oid"),
    (114, "json"),
    (700, "float4"),
    (701, "float8"),
    (1000, "_bool"),
    (1001, "_bytea"),
    (1002, "_char"),
    (1003, "_name"),
    (1005, "_int2"),
    (1007, "_int4"),
    (1009, "_text"),
    (1014, "_bpchar"),
    (1015, "_varchar"),
    (1016, "_int8"),
    (1021, "_float4"),
    (1022, "_float8"),
    (1042, "bpchar"),
    (1043, "varchar"),
    (1082, "date"),
    (1083, "time"),
    (1114, "timestamp"),
    (1115, "_timestamp"),
    (1184, "timestamptz"),
    (1185, "_timestamptz"),
    (1186, "interval"),
    (1187, "_interval"),
    (1231, "_numeric"),
    (1263, "_cstring"),
    (1700, "numeric"),
    (2950, "uuid"),
    (2951, "_uuid"),
    (3802, "jsonb"),
    (3807, "_jsonb") ]

/-- The inline field mapping `PG_DATA_TYPES[field.dataTypeID] ||
"oid:" + field.dataTypeID` of `executeQuery`: catalog lookup with a
deterministic fallback embedding the raw identifier. -/
def resolveTypeName (typeId : Nat) : String :=
  jsOrString (PG_DATA_TYPES.lookup typeId) ("oid:" ++ toString typeId)

/-! ## Query executor (QueryExecutor.executeQuery) -/

/-- A row returned by the engine: an ordered mapping from column name to
value. -/
def Row : Type := List (String × JSValue)

/-- A field descriptor of the `pg` result (`result.fields` entries). -/
structure PgFieldDesc where
  name : String
  dataTypeID : Nat

/-- The raw result object produced by `client.query`: `rowCount`,
`command` and `fields` may each be absent (or falsy). -/
structure PgQueryResult where
  rows : List Row
  rowCount : Option Int
  command : Option String
  fields : Option (List PgFieldDesc)

/-- Outcome of a `client.query` call: a result object, or a thrown error
whose message is the engine's text. -/
inductive EngineOutcome where
  | ok (result : PgQueryResult)
  | err (message : String)

/-- An entry of `QueryResult.fields` after type-catalog annotation. -/
structure FieldInfo where
  name : String
  dataTypeID : Nat
  dataTypeName : String
  deriving Repr, DecidableEq

/-- The stable result envelope assembled by `executeQuery`. -/
structure QueryResult where
  rows : List Row
  rowCount : Int
  command : String
  fields : List FieldInfo
  executionTime : Int

/-- The catch block of `executeQuery` (lines 87-119): substring
classification of the engine's message in a fixed priority order, each
branch attaching the statement truncated to 100 characters and the
generic branch additionally attaching the elapsed time at failure. -/
def classifyQueryError (query : String) (startTime endTime : Int)
    (errorMessage : String) : ManagedError :=
  if jsIncludes errorMessage "permission denied" then
    { code := ErrorCodes.PERMISSION_DENIED
      message := "Permission denied for this operation"
      details := some { query := some (jsSubstringTo query 100), executionTime := none } }
  else if jsIncludes errorMessage "does not exist" then
    { code := ErrorCodes.TABLE_NOT_FOUND
      message := errorMessage
      details := some { query := some (jsSubstringTo query 100), executionTime := none } }
  else if jsIncludes errorMessage "syntax error" then
    { code := ErrorCodes.QUERY_ERROR
      message := "SQL syntax error: " ++ errorMessage
      details := some { query := some (jsSubstringTo query 100), executionTime := none } }
  else
    { code := ErrorCodes.QUERY_ERROR
      message := "Query execution failed: " ++ errorMessage
      details := some { query := some (jsSubstringTo query 100)
                        executionTime := some (endTime - startTime) } }

/-- The per-field annotation step of `executeQuery` (lines 68-72):
carries the reported name and type identifier, resolving the identifier
through the type catalog. -/
def toFieldInfo (field : PgFieldDesc) : FieldInfo :=
  { name := field.name
    dataTypeID := field.dataTypeID
    dataTypeName := resolveTypeName field.dataTypeID }

/-- `QueryExecutor.executeQuery`. `startTime` and `endTime` are the two
`Date.now()` readings; the `pg` client is the `engine` argument, invoked
once with the query text and `params || []`. On success the result
envelope is assembled with falsy-defaulting for `rowCount`, `command` and
`fields`; on failure the caught message is classified. -/
def executeQuery (startTime endTime : Int) (query : String)
    (params : Option (List JSValue))
    (engine : String → List JSValue → EngineOutcome) :
    Except ManagedError QueryResult :=
  match engine query (jsOrParams params) with
  | .ok result =>
      .ok { rows := result.rows
            rowCount := jsOrInt result.rowCount 0
            command := jsOrString result.command "UNKNOWN"
            fields :=
              match result.fields with
              | none => []
              | some fs => fs.map toFieldInfo
            executionTime := endTime - startTime }
  | .err message => .error (classifyQueryError query startTime endTime message)

/-! ## Table listing (QueryExecutor.listTables) -/

/-- A row of the `pg_tables` system catalog, as selected by `listTables`. -/
structure PgTableRow where
  schemaname : String
  tablename : String
  tableowner : String
  hasindexes : Bool
  hastriggers : Bool
  deriving Repr, DecidableEq

/-- The `TableInfo` shape `listTables` maps each catalog row into. -/
structure TableInfo where
  schema_name : String
  table_name : String
  table_owner : String
  has_indexes : Bool
  has_triggers : Bool
  deriving Repr, DecidableEq

/-- The base SELECT text that `listTables` starts from (template literal
at lines 123-132 of QueryExecutor.ts). -/
def listTablesBaseQuery : String :=
  "\n      SELECT \n        schemaname as schema_name,\n        tablename as table_name,\n        tableowner as table_owner,\n        hasindexes as has_indexes,\n        hastriggers as has_triggers\n      FROM pg_tables \n      WHERE schemaname NOT IN (\x27information_schema\x27, \x27pg_catalog\x27)\n    "

/-- The query text and parameter list built by `listTables`: the schema
filter clause is appended only when `schema` is truthy (JavaScript
`if (schema)`, so an empty string behaves like an absent filter), and the
schema value itself only ever travels in the parameter list. -/
def listTablesQuery (schema : Option String) : String × List String :=
  let filtered : String × List String :=
    match schema with
    | some s =>
        if jsTruthy (.str s) then (listTablesBaseQuery ++ " AND schemaname = $1", [s])
        else (listTablesBaseQuery, [])
    | none => (listTablesBaseQuery, [])
  (filtered.1 ++ " ORDER BY schemaname, tablename", filtered.2)

/-- The full text of the unfiltered catalog query. -/
def unfilteredTablesQuery : String :=
  listTablesBaseQuery ++ " ORDER BY schemaname, tablename"

/-- The full text of the schema-filtered catalog query. -/
def filteredTablesQuery : String :=
  listTablesBaseQuery ++ " AND schemaname = $1" ++ " ORDER BY schemaname, tablename"

/-- The ORDER BY key of the catalog query: ascending by schema name, then
table name. -/
def tableRowLE (a b : PgTableRow) : Prop :=
  a.schemaname < b.schemaname ∨ (a.schemaname = b.schemaname ∧ a.tablename ≤ b.tablename)

instance : DecidableRel tableRowLE := fun a b => by
  unfold tableRowLE; infer_instance

instance : IsTotal PgTableRow tableRowLE where
  total a b := by
    unfold tableRowLE
    rcases lt_trichotomy a.schemaname b.schemaname with h | h | h
    · exact Or.inl (Or.inl h)
    · rcases le_total a.tablename b.tablename with h2 | h2
      · exact Or.inl (Or.inr ⟨h, h2⟩)
      · exact Or.inr (Or.inr ⟨h.symm, h2⟩)
    · exact Or.inr (Or.inl h)

instance : IsTrans PgTableRow tableRowLE where
  trans a b c hab hbc := by
    unfold tableRowLE at *
    rcases hab with h1 | ⟨h1, h1t⟩
    · rcases hbc with h2 | ⟨h2, _⟩
      · exact Or.inl (h1.trans h2)
      · exact Or.inl (h2 ▸ h1)
    · rcases hbc with h2 | ⟨h2, h2t⟩
      · exact Or.inl (h1 ▸ h2)
      · exact Or.inr ⟨h1.trans h2, h1t.trans h2t⟩

/-- Whether a `pg_tables` row survives the fixed
`schemaname NOT IN (\x27information_schema\x27, \x27pg_catalog\x27)` clause. -/
def notSystemSchema (r : PgTableRow) : Bool :=
  !(r.schemaname == "information_schema") && !(r.schemaname == "pg_catalog")

/-- Models the PostgreSQL engine's evaluation of the two catalog query
texts `listTables` can construct: rows of `pg_tables` are filtered by the
WHERE clause (system schemas always excluded, plus the `$1` equality when
the filtered text is submitted) and sorted by the ORDER BY clause. Any
other query text or parameter shape is rejected. -/
def pgTablesEngine (catalog : List PgTableRow) (queryText : String)
    (params : List String) : Option (List PgTableRow) :=
  let visible := catalog.filter notSystemSchema
  if queryText = unfilteredTablesQuery ∧ params = [] then
    some (List.insertionSort tableRowLE visible)
  else if queryText = filteredTablesQuery then
    match params with
    | [s] => some (List.insertionSort tableRowLE
        (visible.filter fun r => r.schemaname == s))
    | _ => none
  else none

/-- The row-shaping step of `listTables` (lines 144-150). -/
def toTableInfo (row : PgTableRow) : TableInfo :=
  { schema_name := row.schemaname
    table_name := row.tablename
    table_owner := row.tableowner
    has_indexes := row.hasindexes
    has_triggers := row.hastriggers }

/-- `QueryExecutor.listTables`: builds the query text and parameters,
submits them to the engine, and maps each returned row into a
`TableInfo`. -/
def listTables (catalog : List PgTableRow) (schema : Option String) :
    Option (List TableInfo) :=
  let built := listTablesQuery schema
  (pgTablesEngine catalog built.1 built.2).map fun rows =>
    rows.map toTableInfo

/-- The ORDER BY key carried over to the shaped `TableInfo` records. -/
def tableInfoLE (a b : TableInfo) : Prop :=
  a.schema_name < b.schema_name ∨
    (a.schema_name = b.schema_name ∧ a.table_name ≤ b.table_name)

/-- Whether a catalog row satisfies the full WHERE clause of the query
`listTables` submits for a given schema filter. -/
def listTablesMatches (schema : Option String) (r : PgTableRow) : Bool :=
  notSystemSchema r &&
    (match schema with
     | some s => r.schemaname == s
     | none => true)

/-! ## Table description (QueryExecutor.describeTable) -/

/-- A row of the column-metadata query (step 1 of `describeTable`). -/
structure PgColumnRow where
  column_name : String
  data_type : String
  is_nullable : String
  column_default : Option String
  character_maximum_length : Option Int
  numeric_precision : Option Int
  numeric_scale : Option Int
  deriving Repr, DecidableEq

/-- A row of the index query (step 2 of `describeTable`). -/
structure PgIndexRow where
  index_name : String
  index_definition : String
  deriving Repr, DecidableEq

/-- A described column: the column-metadata row plus the primary-key
membership flag. -/
structure ColumnInfo where
  column_name : String
  data_type : String
  is_nullable : String
  column_default : Option String
  character_maximum_length : Option Int
  numeric_precision : Option Int
  numeric_scale : Option Int
  is_primary_key : Bool
  deriving Repr, DecidableEq

/-- A described index: name, definition text, and the two derived flags. -/
structure IndexInfo where
  index_name : String
  index_definition : String
  is_primary : Bool
  is_unique : Bool
  deriving Repr, DecidableEq

/-- The value `describeTable` returns. -/
structure TableDescription where
  schema : String
  table : String
  columns : List ColumnInfo
  indexes : List IndexInfo
  deriving Repr, DecidableEq

/-- An error escaping `describeTable`: either a raw engine error from one
of its three queries (not caught by `describeTable`), or the
`ManagedError` it raises itself. -/
inductive DbThrown where
  | raw (message : String)
  | managed (e : ManagedError)
  deriving Repr, DecidableEq

/-- `new Set(list)` followed by spreading back to an array: deduplication
keeping the first occurrence, in insertion order. -/
def jsSetToList (l : List String) : List String :=
  l.foldl (fun acc x => if acc.contains x then acc else acc ++ [x]) []

/-- `QueryExecutor.describeTable`. The three `client.query` calls are
modelled by their outcomes (`Except` an engine error message, the typed
row lists): column metadata, index rows, and primary-key column names, in
the order the code issues them. -/
def describeTable (tableName : String) (schema : String)
    (colQuery : Except String (List PgColumnRow))
    (idxQuery : Except String (List PgIndexRow))
    (pkQuery : Except String (List String)) :
    Except DbThrown TableDescription :=
  match colQuery with
  | .error m => .error (.raw m)
  | .ok colRows =>
    if colRows.length = 0 then
      .error (.managed
        { code := ErrorCodes.TABLE_NOT_FOUND
          message := "Table \"" ++ schema ++ "\".\"" ++ tableName ++ "\" not found"
          details := none })
    else
      match idxQuery with
      | .error m => .error (.raw m)
      | .ok idxRows =>
        match pkQuery with
        | .error m => .error (.raw m)
        | .ok pkNames =>
          let primaryKeyColumns := jsSetToList pkNames
          let columns := colRows.map fun col =>
            { column_name := col.column_name
              data_type := col.data_type
              is_nullable := col.is_nullable
              column_default := col.column_default
              character_maximum_length := col.character_maximum_length
              numeric_precision := col.numeric_precision
              numeric_scale := col.numeric_scale
              is_primary_key := primaryKeyColumns.contains col.column_name }
          let indexes := idxRows.map fun idx =>
            { index_name := idx.index_name
              index_definition := idx.index_definition
              is_primary := decide (primaryKeyColumns.length > 0)
                && jsIncludes idx.index_definition
                    (String.intercalate ", " primaryKeyColumns)
              is_unique := jsIncludes idx.index_definition.toLower "unique" }
          .ok { schema := schema
                table := tableName
                columns := columns
                indexes := indexes }

/-! ## The execute_query tool handler (handleExecuteQuery) -/

/-- The two tool arguments of `execute_query`; an argument the caller did
not supply is `JSValue.undef`. -/
structure ExecuteQueryArgs where
  query : JSValue
  params : JSValue

/-- The element test of the handler's parameter loop: rejected when the
value is not `null` and its `typeof` is none of `string`, `number`,
`boolean`. -/
def invalidParamElem (p : JSValue) : Bool :=
  !(jsIsNull p) && !(jsTypeof p == "string") && !(jsTypeof p == "number")
    && !(jsTypeof p == "boolean")

/-- The elements of an array value (the handler only iterates values that
passed the `Array.isArray` check). -/
def jsArrayElems : JSValue → List JSValue
  | .arr xs => xs
  | _ => []

/-- `handleExecuteQuery` up to its boundary with the connection: argument
validation, then the configuration check, then the connect-and-execute
step, which is abstracted as `run` (connection creation, `connect()`,
`executeQuery`, formatting). The validation checks mirror the source:
`!args.query || typeof args.query !== "string"`, then truthy-and-not-array
on `params`, then the element loop guarded by `if (args.params)`. -/
def handleExecuteQuery (args : ExecuteQueryArgs) (isConfigured : Bool)
    (run : Unit → Except ManagedError String) : Except ManagedError String :=
  if !(jsTruthy args.query) || !(jsTypeof args.query == "string") then
    .error { code := ErrorCodes.INVALID_PARAMS
             message := "query is required and must be a string"
             details := none }
  else if jsTruthy args.params && !(jsIsArray args.params) then
    .error { code := ErrorCodes.INVALID_PARAMS
             message := "params must be an array"
             details := none }
  else if jsTruthy args.params && (jsArrayElems args.params).any invalidParamElem then
    .error { code := ErrorCodes.INVALID_PARAMS
             message := "Query parameters must be string, number, boolean, or null"
             details := none }
  else if !isConfigured then
    .error { code := ErrorCodes.NO_CONNECTION
             message := "Database connection not configured. Use configure_connection tool first"
             details := none }
  else run ()

/-! ## Helper lemmas -/

/-- A value found by association-list lookup is one of the stored values. -/
theorem lookup_mem_values {l : List (Nat × String)} {a : Nat} {b : String}
    (h : l.lookup a = some b) : b ∈ l.map Prod.snd := by
  induction l with
  | nil => simp [List.lookup] at h
  | cons p t ih =>
    obtain ⟨k, v⟩ := p
    by_cases hk : a == k
    · simp [List.lookup, hk] at h
      simp [h]
    · simp only [List.lookup, hk] at h
      simp [ih h]

/-- Every type name stored in the catalog is non-empty, so the JavaScript
falsy-default in the lookup expression never replaces a present entry. -/
theorem pgDataTypes_values_nonempty : ∀ s ∈ PG_DATA_TYPES.map Prod.snd, s ≠ "" := by
  decide

/-- An infix of a string stays an infix after prepending text. -/
theorem data_infix_append_left {pat s : String} (pre : String)
    (h : pat.data <:+: s.data) : pat.data <:+: (pre ++ s).data := by
  obtain ⟨u, v, huv⟩ := h
  exact ⟨pre.data ++ u, v, by rw [String.data_append, ← huv]; simp⟩

/-- A string is an infix of any prepending of text to it. -/
theorem data_infix_self_append (pre s : String) : s.data <:+: (pre ++ s).data :=
  ⟨pre.data, [], by rw [String.data_append]; simp⟩

/-- What `classifyQueryError` puts into `details` on every branch: the
statement truncated to 100 characters, and for the branch that matched
none of the three patterns additionally the elapsed time. -/
theorem classifyQueryError_details (query : String) (startTime endTime : Int)
    (message : String) :
    ∃ d, (classifyQueryError query startTime endTime message).details = some d
      ∧ d.query = some (jsSubstringTo query 100)
      ∧ (jsIncludes message "permission denied" = false →
         jsIncludes message "does not exist" = false →
         jsIncludes message "syntax error" = false →
           (classifyQueryError query startTime endTime message).code = ErrorCodes.QUERY_ERROR
           ∧ d.executionTime = some (endTime - startTime)) := by
  unfold classifyQueryError
  split_ifs with h1 h2 h3
  · exact ⟨_, rfl, rfl, fun c1 _ _ => by rw [h1] at c1; cases c1⟩
  · exact ⟨_, rfl, rfl, fun _ c2 _ => by rw [h2] at c2; cases c2⟩
  · exact ⟨_, rfl, rfl, fun _ _ c3 => by rw [h3] at c3; cases c3⟩
  · exact ⟨_, rfl, rfl, fun _ _ _ => ⟨rfl, rfl⟩⟩

/-! ## Claim theorems -/

/-- C4: resolving a type identifier is total and never fails: an
identifier with a catalog entry resolves to that entry's name, and an
identifier without one resolves to the fallback string embedding the raw
identifier. -/
theorem resolveTypeName_total (typeId : Nat) :
    (∀ name, PG_DATA_TYPES.lookup typeId = some name → resolveTypeName typeId = name)
    ∧ (PG_DATA_TYPES.lookup typeId = none →
        resolveTypeName typeId = "oid:" ++ toString typeId) := by
  constructor
  · intro name h
    have hne : name ≠ "" := pgDataTypes_values_nonempty name (lookup_mem_values h)
    simp [resolveTypeName, h, jsOrString, hne]
  · intro h
    simp [resolveTypeName, h, jsOrString]

/-- Witness for C4: the catalog entry 16 resolves to "bool", and the
unknown identifier 9999 resolves to the fallback "oid:9999". -/
theorem resolveTypeName_total_witness :
    resolveTypeName 16 = "bool" ∧ resolveTypeName 9999 = "oid:9999" :=
  ⟨(resolveTypeName_total 16).1 "bool" rfl, (resolveTypeName_total 9999).2 rfl⟩

/-- C6: executing with an absent parameter list is observably identical to
executing with an explicitly empty parameter list: for every engine, every
statement and every pair of clock readings the two calls produce the same
result, both submitting the statement through the same parameterized call
with the empty parameter list. -/
theorem executeQuery_absent_params_eq_empty (startTime endTime : Int)
    (query : String) (engine : String → List JSValue → EngineOutcome) :
    executeQuery startTime endTime query none engine
      = executeQuery startTime endTime query (some []) engine := rfl

/-- C1: every engine-level failure in `executeQuery` is classified by
substring checks on the engine message in fixed priority order:
permission-denied phrasing, then object-does-not-exist phrasing, then
syntax-error phrasing (generic kind, syntax indicator in the message),
then the generic kind carrying the original engine message. -/
theorem executeQuery_error_classification (startTime endTime : Int)
    (query message : String) (params : Option (List JSValue))
    (engine : String → List JSValue → EngineOutcome)
    (h : engine query (jsOrParams params) = .err message) :
    executeQuery startTime endTime query params engine
      = .error (classifyQueryError query startTime endTime message)
    ∧ (jsIncludes message "permission denied" = true →
        (classifyQueryError query startTime endTime message).code
          = ErrorCodes.PERMISSION_DENIED)
    ∧ (jsIncludes message "permission denied" = false →
       jsIncludes message "does not exist" = true →
        (classifyQueryError query startTime endTime message).code
          = ErrorCodes.TABLE_NOT_FOUND)
    ∧ (jsIncludes message "permission denied" = false →
       jsIncludes message "does not exist" = false →
       jsIncludes message "syntax error" = true →
        (classifyQueryError query startTime endTime message).code
          = ErrorCodes.QUERY_ERROR
        ∧ jsIncludes (classifyQueryError query startTime endTime message).message
            "syntax error" = true)
    ∧ (jsIncludes message "permission denied" = false →
       jsIncludes message "does not exist" = false →
       jsIncludes message "syntax error" = false →
        (classifyQueryError query startTime endTime message).code
          = ErrorCodes.QUERY_ERROR
        ∧ message.data <:+:
            (classifyQueryError query startTime endTime message).message.data) := by
  refine ⟨by unfold executeQuery; rw [h], ?_, ?_, ?_, ?_⟩
  · intro h1
    simp [classifyQueryError, h1]
  · intro h1 h2
    simp [classifyQueryError, h1, h2]
  · intro h1 h2 h3
    have hmsg : (classifyQueryError query startTime endTime message).message
        = "SQL syntax error: " ++ message := by
      simp [classifyQueryError, h1, h2, h3]
    refine ⟨by simp [classifyQueryError, h1, h2, h3], ?_⟩
    rw [hmsg]
    have hsyn : ("syntax error" : String).data <:+: message.data :=
      of_decide_eq_true h3
    exact decide_eq_true (data_infix_append_left _ hsyn)
  · intro h1 h2 h3
    have hmsg : (classifyQueryError query startTime endTime message).message
        = "Query execution failed: " ++ message := by
      simp [classifyQueryError, h1, h2, h3]
    refine ⟨by simp [classifyQueryError, h1, h2, h3], ?_⟩
    rw [hmsg]
    exact data_infix_self_append _ _

/-- Witness for C1: an engine failure mentioning "permission denied" is
classified as PERMISSION_DENIED, and one mentioning "does not exist" (but
not "permission denied") is classified as TABLE_NOT_FOUND. -/
theorem executeQuery_error_classification_witness :
    (executeQuery 0 7 "DROP TABLE t" none
        (fun _ _ => .err "permission denied for table t")
      = .error (classifyQueryError "DROP TABLE t" 0 7 "permission denied for table t")
    ∧ (classifyQueryError "DROP TABLE t" 0 7 "permission denied for table t").code
        = ErrorCodes.PERMISSION_DENIED)
    ∧ (classifyQueryError "SELECT 1" 0 7 "relation \"x\" does not exist").code
        = ErrorCodes.TABLE_NOT_FOUND := by
  have hp := executeQuery_error_classification 0 7 "DROP TABLE t"
    "permission denied for table t" none
    (fun _ _ => .err "permission denied for table t") rfl
  have hd := executeQuery_error_classification 0 7 "SELECT 1"
    "relation \"x\" does not exist" none
    (fun _ _ => .err "relation \"x\" does not exist") rfl
  exact ⟨⟨hp.1, hp.2.1 (by decide)⟩, hd.2.2.1 (by decide) (by decide)⟩

/-- C2 counterexample: the TABLE_NOT_FOUND error `describeTable` raises
when its column query returns zero rows is a classified error of the
query layer that carries no details record at all, so it does not carry
the offending SQL statement. -/
theorem describeTable_error_no_details_counterexample :
    describeTable "t" "public" (.ok []) (.ok []) (.ok [])
      = .error (.managed
          { code := "TABLE_NOT_FOUND"
            message := "Table \"public\".\"t\" not found"
            details := none }) := rfl

/-- C2 (amended): every classified error raised by `executeQuery` carries
its kind, a message, and a details record containing the offending SQL
truncated to at most 100 characters, with the generic QUERY_ERROR case
additionally carrying the elapsed time at failure in milliseconds; the
TABLE_NOT_FOUND error raised by `describeTable`, however, carries kind and
message but no details record. -/
theorem queryLayer_error_details (startTime endTime : Int)
    (query message : String) (params : Option (List JSValue))
    (engine : String → List JSValue → EngineOutcome)
    (h : engine query (jsOrParams params) = .err message) :
    (∃ e d, executeQuery startTime endTime query params engine = .error e
      ∧ e.details = some d
      ∧ d.query = some (jsSubstringTo query 100)
      ∧ (jsSubstringTo query 100).length ≤ 100
      ∧ (jsIncludes message "permission denied" = false →
         jsIncludes message "does not exist" = false →
         jsIncludes message "syntax error" = false →
           e.code = ErrorCodes.QUERY_ERROR
           ∧ d.executionTime = some (endTime - startTime)))
    ∧ (∀ tableName schema idxQuery pkQuery,
        describeTable tableName schema (.ok []) idxQuery pkQuery
          = .error (.managed
              { code := ErrorCodes.TABLE_NOT_FOUND
                message := "Table \"" ++ schema ++ "\".\"" ++ tableName ++ "\" not found"
                details := none })) := by
  constructor
  · obtain ⟨d, hd, hq, himp⟩ := classifyQueryError_details query startTime endTime message
    refine ⟨classifyQueryError query startTime endTime message, d,
      by unfold executeQuery; rw [h], hd, hq, ?_, himp⟩
    exact query.data.length_take_le 100
  · intro tableName schema idxQuery pkQuery
    rfl

/-- Witness for C2: a generic engine failure on a concrete statement,
with the truncated statement and the elapsed time in the details. -/
theorem queryLayer_error_details_witness :
    ∃ e d, executeQuery 0 9 "SELECT 1" none (fun _ _ => .err "boom") = .error e
      ∧ e.details = some d
      ∧ d.query = some (jsSubstringTo "SELECT 1" 100)
      ∧ (jsSubstringTo "SELECT 1" 100).length ≤ 100
      ∧ (jsIncludes "boom" "permission denied" = false →
         jsIncludes "boom" "does not exist" = false →
         jsIncludes "boom" "syntax error" = false →
           e.code = ErrorCodes.QUERY_ERROR ∧ d.executionTime = some (9 - 0)) :=
  (queryLayer_error_details 0 9 "SELECT 1" "boom" none (fun _ _ => .err "boom") rfl).1

/-- C5: on every successful execution the assembled result has `rowCount`
equal to the engine-reported count or 0 when the engine reports none,
`command` equal to the engine-reported tag or "UNKNOWN" when unreported,
fields mapped through the type catalog (empty when the engine reports
none), and a non-negative `executionTime` equal to the elapsed whole
milliseconds. -/
theorem executeQuery_success_shape (startTime endTime : Int) (query : String)
    (params : Option (List JSValue))
    (engine : String → List JSValue → EngineOutcome) (result : PgQueryResult)
    (h : engine query (jsOrParams params) = .ok result)
    (ht : startTime ≤ endTime) :
    ∃ out, executeQuery startTime endTime query params engine = .ok out
      ∧ out.rowCount = result.rowCount.getD 0
      ∧ (result.command = none → out.command = "UNKNOWN")
      ∧ (∀ c, result.command = some c → c ≠ "" → out.command = c)
      ∧ (result.fields = none → out.fields = [])
      ∧ (∀ fs, result.fields = some fs → out.fields = fs.map toFieldInfo)
      ∧ out.executionTime = endTime - startTime
      ∧ 0 ≤ out.executionTime := by
  refine ⟨_, by unfold executeQuery; rw [h], ?_, ?_, ?_, ?_, ?_, rfl, ?_⟩
  · show jsOrInt result.rowCount 0 = result.rowCount.getD 0
    cases result.rowCount with
    | none => rfl
    | some n =>
      simp only [jsOrInt, Option.getD_some]
      split
      · omega
      · rfl
  · intro hc
    show jsOrString result.command "UNKNOWN" = "UNKNOWN"
    rw [hc]
    rfl
  · intro c hc hne
    show jsOrString result.command "UNKNOWN" = c
    rw [hc]
    simp [jsOrString, hne]
  · intro hf
    show (match result.fields with
      | none => ([] : List FieldInfo)
      | some fs => fs.map toFieldInfo) = []
    rw [hf]
  · intro fs hf
    show (match result.fields with
      | none => ([] : List FieldInfo)
      | some fs => fs.map toFieldInfo) = fs.map toFieldInfo
    rw [hf]
  · show 0 ≤ endTime - startTime
    omega

/-- The concrete engine result used by the C5 witness: three rows
reported, a SELECT tag, one int4 field. -/
def witnessPgResult : PgQueryResult :=
  { rows := []
    rowCount := some 3
    command := some "SELECT"
    fields := some [{ name := "a", dataTypeID := 23 }] }

/-- Witness for C5: a concrete successful engine result at clock readings
0 and 5. -/
theorem executeQuery_success_shape_witness :
    ∃ out, executeQuery 0 5 "SELECT a FROM t" none
        (fun _ _ => .ok witnessPgResult) = .ok out
      ∧ out.rowCount = witnessPgResult.rowCount.getD 0
      ∧ out.executionTime = 5 - 0
      ∧ 0 ≤ out.executionTime := by
  obtain ⟨out, h1, h2, _, _, _, _, h7, h8⟩ :=
    executeQuery_success_shape 0 5 "SELECT a FROM t" none
      (fun _ _ => .ok witnessPgResult) witnessPgResult rfl (by omega)
  exact ⟨out, h1, h2, h7, h8⟩

/-- C3: given that the column query succeeded, `describeTable` fails with
a TABLE_NOT_FOUND classified error iff that first query returned zero
column rows; in that case the error message names both the schema and the
table, and with at least one column row `describeTable` never raises
TABLE_NOT_FOUND itself (whatever the other two queries do). -/
theorem describeTable_table_not_found (tableName schema : String)
    (colRows : List PgColumnRow)
    (idxQuery : Except String (List PgIndexRow))
    (pkQuery : Except String (List String)) :
    ((∃ e, describeTable tableName schema (.ok colRows) idxQuery pkQuery
        = .error (.managed e) ∧ e.code = ErrorCodes.TABLE_NOT_FOUND)
      ↔ colRows = [])
    ∧ (colRows = [] →
        ∃ e, describeTable tableName schema (.ok colRows) idxQuery pkQuery
          = .error (.managed e)
          ∧ e.code = ErrorCodes.TABLE_NOT_FOUND
          ∧ schema.data <:+: e.message.data
          ∧ tableName.data <:+: e.message.data) := by
  constructor
  · constructor
    · rintro ⟨e, he, -⟩
      cases colRows with
      | nil => rfl
      | cons c cs =>
        exfalso
        unfold describeTable at he
        simp at he
        cases idxQuery with
        | error m => simp at he
        | ok idxRows =>
          cases pkQuery with
          | error m => simp at he
          | ok pkNames => simp at he
    · rintro rfl
      exact ⟨{ code := ErrorCodes.TABLE_NOT_FOUND
               message := "Table \"" ++ schema ++ "\".\"" ++ tableName ++ "\" not found"
               details := none }, rfl, rfl⟩
  · rintro rfl
    refine ⟨{ code := ErrorCodes.TABLE_NOT_FOUND
              message := "Table \"" ++ schema ++ "\".\"" ++ tableName ++ "\" not found"
              details := none }, rfl, rfl, ?_, ?_⟩
    · show schema.data <:+:
        ("Table \"" ++ schema ++ "\".\"" ++ tableName ++ "\" not found").data
      exact ⟨("Table \"" : String).data,
        ("\".\"" ++ tableName ++ "\" not found" : String).data,
        by simp [String.data_append]⟩
    · show tableName.data <:+:
        ("Table \"" ++ schema ++ "\".\"" ++ tableName ++ "\" not found").data
      exact ⟨("Table \"" ++ schema ++ "\".\"" : String).data,
        ("\" not found" : String).data,
        by simp [String.data_append]⟩

/-- Witness for C3: describing a nonexistent (public, missing) pair with
all three queries succeeding and the column query returning zero rows. -/
theorem describeTable_table_not_found_witness :
    ∃ e, describeTable "missing" "public" (.ok []) (.ok []) (.ok [])
      = .error (.managed e)
      ∧ e.code = ErrorCodes.TABLE_NOT_FOUND
      ∧ ("public" : String).data <:+: e.message.data
      ∧ ("missing" : String).data <:+: e.message.data :=
  (describeTable_table_not_found "missing" "public" [] (.ok []) (.ok [])).2 rfl

/-- C10: when the primary-key query returns zero rows, every index in the
description has `is_primary = false` — the size guard prevents the
degenerate match even though the empty joined column string is a
substring of every index definition. -/
theorem describeTable_empty_pk_no_primary (tableName schema : String)
    (colRows : List PgColumnRow) (idxRows : List PgIndexRow)
    (hcols : colRows ≠ []) :
    ∃ desc, describeTable tableName schema (.ok colRows) (.ok idxRows) (.ok [])
        = .ok desc
      ∧ (∀ idx ∈ desc.indexes, idx.is_primary = false)
      ∧ (∀ row ∈ idxRows,
          jsIncludes row.index_definition
            (String.intercalate ", " (jsSetToList [])) = true) := by
  obtain ⟨c, cs, rfl⟩ := List.exists_cons_of_ne_nil hcols
  refine ⟨_, rfl, ?_, ?_⟩
  · intro idx hidx
    simp only [List.mem_map] at hidx
    obtain ⟨row, -, hrow⟩ := hidx
    rw [← hrow]
    rfl
  · intro row hrow
    show jsIncludes row.index_definition "" = true
    exact decide_eq_true ⟨[], row.index_definition.data, by simp⟩

/-- Witness for C10: a one-column table with one index and an empty
primary-key result. -/
theorem describeTable_empty_pk_no_primary_witness :
    ∃ desc, describeTable "t" "public"
        (.ok [{ column_name := "id"
                data_type := "integer"
                is_nullable := "NO"
                column_default := none
                character_maximum_length := none
                numeric_precision := none
                numeric_scale := none }])
        (.ok [{ index_name := "t_x_idx"
                index_definition := "CREATE INDEX t_x_idx ON public.t USING btree (x)" }])
        (.ok []) = .ok desc
      ∧ ∀ idx ∈ desc.indexes, idx.is_primary = false := by
  obtain ⟨desc, h1, h2, -⟩ :=
    describeTable_empty_pk_no_primary "t" "public"
      [{ column_name := "id"
         data_type := "integer"
         is_nullable := "NO"
         column_default := none
         character_maximum_length := none
         numeric_precision := none
         numeric_scale := none }]
      [{ index_name := "t_x_idx"
         index_definition := "CREATE INDEX t_x_idx ON public.t USING btree (x)" }]
      (by simp)
  exact ⟨desc, h1, h2⟩

/-- With no schema filter, `listTables` submits the unfiltered text with
no parameters and gets back the sorted non-system rows. -/
theorem listTables_none_eq (catalog : List PgTableRow) :
    listTables catalog none
      = some ((List.insertionSort tableRowLE
          (catalog.filter notSystemSchema)).map toTableInfo) := by
  simp only [listTables, listTablesQuery, pgTablesEngine]
  rw [if_pos ⟨rfl, trivial⟩]
  rfl

/-- With a non-empty schema filter, `listTables` submits the filtered text
with the schema as its single parameter and gets back the sorted matching
non-system rows. -/
theorem listTables_some_eq (catalog : List PgTableRow) (s : String) (hs : s ≠ "") :
    listTables catalog (some s)
      = some ((List.insertionSort tableRowLE
          ((catalog.filter notSystemSchema).filter
            fun r => r.schemaname == s)).map toTableInfo) := by
  have htruthy : jsTruthy (.str s) = true := by
    simp [jsTruthy, hs]
  simp only [listTables, listTablesQuery, pgTablesEngine, htruthy, if_true]
  rw [if_neg (by rintro ⟨-, habs⟩; simp at habs)]
  simp only [filteredTablesQuery]
  rw [if_pos trivial]
  rfl

/-- The shaping step preserves the ORDER BY key, so sortedness carries
over to the `TableInfo` list. -/
theorem sorted_map_toTableInfo {l : List PgTableRow}
    (h : List.Sorted tableRowLE l) :
    List.Sorted tableInfoLE (l.map toTableInfo) :=
  List.Pairwise.map toTableInfo (fun _ _ hab => hab) h

/-- The text of the filtered query built for a truthy schema value. -/
theorem listTablesQuery_some_eq (s : String) (hs : s ≠ "") :
    (listTablesQuery (some s)).1 = filteredTablesQuery
      ∧ (listTablesQuery (some s)).2 = [s] := by
  have htruthy : jsTruthy (.str s) = true := by
    simp [jsTruthy, hs]
  simp only [listTablesQuery, htruthy, if_true]
  exact ⟨rfl, trivial⟩

/-- C7 counterexample: with a present empty-string schema filter the
JavaScript truthiness check skips the filter clause entirely, so no table
matches the filter yet the result is not empty (and contains a table
whose schema is not the filter value). -/
theorem listTables_empty_filter_counterexample :
    listTables
        [{ schemaname := "public", tablename := "t", tableowner := "o",
           hasindexes := true, hastriggers := false }] (some "")
      = some
        [{ schema_name := "public", table_name := "t", table_owner := "o",
           has_indexes := true, has_triggers := false }]
    ∧ (("public" : String) = "" → False) := by
  constructor
  · show listTables _ (some "") = _
    rw [show listTables
        [{ schemaname := "public", tablename := "t", tableowner := "o",
           hasindexes := true, hastriggers := false }] (some "")
      = listTables
        [{ schemaname := "public", tablename := "t", tableowner := "o",
           hasindexes := true, hastriggers := false }] none from rfl]
    rw [listTables_none_eq]
    rfl
  · intro habs
    simp at habs

/-- C7 (amended): for an absent filter or a present non-empty filter,
`listTables` never returns a table from the two reserved system schemas,
sends a present filter only as a query parameter (the query text is the
fixed filtered text, independent of the filter value), returns rows
sorted ascending by (schema name, table name), and returns the empty
sequence rather than an error when no table matches; a present
empty-string filter, however, is falsy in JavaScript and is treated as an
absent filter. -/
theorem listTables_spec (catalog : List PgTableRow) (schema : Option String)
    (h : schema = none ∨ ∃ s, schema = some s ∧ s ≠ "") :
    ∃ rows, listTables catalog schema = some rows
      ∧ (∀ t ∈ rows, t.schema_name ≠ "information_schema"
          ∧ t.schema_name ≠ "pg_catalog")
      ∧ List.Sorted tableInfoLE rows
      ∧ (∀ s, schema = some s →
          (listTablesQuery schema).1 = filteredTablesQuery
          ∧ (listTablesQuery schema).2 = [s]
          ∧ ∀ t ∈ rows, t.schema_name = s)
      ∧ ((∀ r ∈ catalog, listTablesMatches schema r = false) → rows = []) := by
  rcases h with rfl | ⟨s, rfl, hs⟩
  · refine ⟨_, listTables_none_eq catalog, ?_, ?_, ?_, ?_⟩
    · intro t ht
      simp only [List.mem_map, List.mem_insertionSort, List.mem_filter] at ht
      obtain ⟨r, ⟨-, hns⟩, hshape⟩ := ht
      rw [← hshape]
      simpa [notSystemSchema, toTableInfo] using hns
    · exact sorted_map_toTableInfo (List.sorted_insertionSort tableRowLE _)
    · intro s hs
      cases hs
    · intro hm
      have hnil : catalog.filter notSystemSchema = [] := by
        rw [List.filter_eq_nil_iff]
        intro r hr
        have := hm r hr
        simpa [listTablesMatches] using this
      rw [hnil]
      rfl
  · refine ⟨_, listTables_some_eq catalog s hs, ?_, ?_, ?_, ?_⟩
    · intro t ht
      simp only [List.mem_map, List.mem_insertionSort, List.mem_filter] at ht
      obtain ⟨r, ⟨⟨-, hns⟩, -⟩, hshape⟩ := ht
      rw [← hshape]
      simpa [notSystemSchema, toTableInfo] using hns
    · exact sorted_map_toTableInfo (List.sorted_insertionSort tableRowLE _)
    · intro s2 hs2
      have hss : s2 = s := by
        injection hs2 with hinj
        exact hinj.symm
      refine ⟨(listTablesQuery_some_eq s hs).1, ?_, ?_⟩
      · rw [hss]
        exact (listTablesQuery_some_eq s hs).2
      · intro t ht
        rw [hss]
        simp only [List.mem_map, List.mem_insertionSort, List.mem_filter] at ht
        obtain ⟨r, ⟨-, heq⟩, hshape⟩ := ht
        rw [← hshape]
        simpa [toTableInfo] using heq
    · intro hm
      have hnil : (catalog.filter notSystemSchema).filter
          (fun r => r.schemaname == s) = [] := by
        rw [List.filter_eq_nil_iff]
        intro r hr
        rw [List.mem_filter] at hr
        have := hm r hr.1
        simp only [listTablesMatches, Bool.and_eq_false_iff] at this
        rcases this with hns | hval
        · rw [hr.2] at hns
          cases hns
        · simpa using hval
      rw [hnil]
      rfl

/-- Witness for C7: a one-table catalog listed with no filter. -/
theorem listTables_spec_witness :
    ∃ rows, listTables
        [{ schemaname := "public", tablename := "t", tableowner := "o",
           hasindexes := true, hastriggers := false }] none = some rows
      ∧ List.Sorted tableInfoLE rows
      ∧ ∀ t ∈ rows, t.schema_name ≠ "information_schema"
          ∧ t.schema_name ≠ "pg_catalog" := by
  obtain ⟨rows, h1, h2, h3, -, -⟩ :=
    listTables_spec
      [{ schemaname := "public", tablename := "t", tableowner := "o",
         hasindexes := true, hastriggers := false }] none (Or.inl rfl)
  exact ⟨rows, h1, h3, h2⟩

/-- C8 counterexample: the pg client's statement-timeout failure surfaces
in `executeQuery` as an engine error whose message ("Query read timeout")
matches none of the three classifier patterns, so the classified error
kind is the generic QUERY_ERROR, not TIMEOUT. -/
theorem executeQuery_timeout_counterexample :
    ∃ e, executeQuery 0 5 "SELECT pg_sleep(10)" none
        (fun _ _ => .err "Query read timeout") = .error e
      ∧ e.code = ErrorCodes.QUERY_ERROR
      ∧ e.code ≠ ErrorCodes.TIMEOUT := by
  refine ⟨_, rfl, ?_, ?_⟩
  · show (classifyQueryError "SELECT pg_sleep(10)" 0 5 "Query read timeout").code
      = ErrorCodes.QUERY_ERROR
    decide
  · show (classifyQueryError "SELECT pg_sleep(10)" 0 5 "Query read timeout").code
      ≠ ErrorCodes.TIMEOUT
    decide

/-- C8 (amended): a timeout exceedance reaches `executeQuery` as an
engine failure whose message matches none of the three classifier
patterns, so it is classified as the generic QUERY_ERROR carrying the
engine's timeout message; moreover no branch of the classifier ever
produces the TIMEOUT kind, which is declared in the taxonomy but unused
by the query layer. -/
theorem executeQuery_timeout_generic (startTime endTime : Int)
    (query message : String) (params : Option (List JSValue))
    (engine : String → List JSValue → EngineOutcome)
    (h : engine query (jsOrParams params) = .err message)
    (h1 : jsIncludes message "permission denied" = false)
    (h2 : jsIncludes message "does not exist" = false)
    (h3 : jsIncludes message "syntax error" = false) :
    (∃ e, executeQuery startTime endTime query params engine = .error e
      ∧ e.code = ErrorCodes.QUERY_ERROR
      ∧ e.code ≠ ErrorCodes.TIMEOUT
      ∧ e.message = "Query execution failed: " ++ message)
    ∧ (∀ (q m : String) (st et : Int),
        (classifyQueryError q st et m).code ≠ ErrorCodes.TIMEOUT) := by
  constructor
  · refine ⟨classifyQueryError query startTime endTime message,
      by unfold executeQuery; rw [h], ?_, ?_, ?_⟩
    · simp [classifyQueryError, h1, h2, h3]
    · simp [classifyQueryError, h1, h2, h3, ErrorCodes.QUERY_ERROR, ErrorCodes.TIMEOUT]
    · simp [classifyQueryError, h1, h2, h3]
  · intro q m st et
    unfold classifyQueryError
    split_ifs <;> simp [ErrorCodes.PERMISSION_DENIED, ErrorCodes.TABLE_NOT_FOUND,
      ErrorCodes.QUERY_ERROR, ErrorCodes.TIMEOUT]

/-- Witness for C8 (amended): the concrete statement-timeout message. -/
theorem executeQuery_timeout_generic_witness :
    ∃ e, executeQuery 0 5 "SELECT pg_sleep(10)" none
        (fun _ _ => .err "Query read timeout") = .error e
      ∧ e.code = ErrorCodes.QUERY_ERROR
      ∧ e.code ≠ ErrorCodes.TIMEOUT
      ∧ e.message = "Query execution failed: " ++ "Query read timeout" :=
  (executeQuery_timeout_generic 0 5 "SELECT pg_sleep(10)" "Query read timeout" none
    (fun _ _ => .err "Query read timeout") rfl
    (by decide) (by decide) (by decide)).1

/-- C9 counterexample: `params := 0` is not an array, but it is falsy in
JavaScript, so both validation branches are skipped and the invocation
proceeds past validation into the connect-and-execute step instead of
failing with INVALID_PARAMS. -/
theorem handleExecuteQuery_falsy_params_counterexample :
    handleExecuteQuery { query := .str "SELECT 1", params := .num 0 } true
        (fun _ => .ok "executed")
      = .ok "executed"
    ∧ jsIsArray (.num 0) = false := ⟨rfl, rfl⟩

/-- C9 (amended): an invocation whose `params` is truthy and not an
array, or is an array containing an element that is not a string, number,
boolean, or null, fails with an INVALID_PARAMS classified error whatever
the configuration state and whatever the connect-and-execute step would
do — so no connection is opened and no statement is executed; falsy
non-array `params` values (null, false, 0, empty string, undefined) are
instead treated as an absent parameter list. -/
theorem handleExecuteQuery_invalid_params (args : ExecuteQueryArgs)
    (hbad : (jsTruthy args.params = true ∧ jsIsArray args.params = false)
      ∨ (∃ xs, args.params = .arr xs ∧ ∃ p ∈ xs, invalidParamElem p = true)) :
    ∀ (isConfigured : Bool) (run : Unit → Except ManagedError String),
      ∃ e, handleExecuteQuery args isConfigured run = .error e
        ∧ e.code = ErrorCodes.INVALID_PARAMS := by
  intro isConfigured run
  unfold handleExecuteQuery
  by_cases hq : (!(jsTruthy args.query) || !(jsTypeof args.query == "string")) = true
  · rw [if_pos hq]
    exact ⟨_, rfl, rfl⟩
  · rw [if_neg hq]
    rcases hbad with ⟨htru, harr⟩ | ⟨xs, hxs, p, hp, hbadp⟩
    · rw [if_pos (by rw [htru, harr]; rfl)]
      exact ⟨_, rfl, rfl⟩
    · have htru : jsTruthy args.params = true := by rw [hxs]; rfl
      have harr : jsIsArray args.params = true := by rw [hxs]; rfl
      rw [if_neg (by rw [htru, harr]; simp)]
      have hany : (jsArrayElems args.params).any invalidParamElem = true := by
        rw [hxs]
        exact List.any_eq_true.mpr ⟨p, hp, hbadp⟩
      rw [if_pos (by rw [htru, hany]; rfl)]
      exact ⟨_, rfl, rfl⟩

/-- Witness for C9 (amended): a params array containing a nested array
element is rejected with INVALID_PARAMS regardless of the configuration
and of what the connect-and-execute step would return. -/
theorem handleExecuteQuery_invalid_params_witness :
    ∃ e, handleExecuteQuery
        { query := .str "SELECT 1", params := .arr [.arr []] } true
        (fun _ => .ok "executed") = .error e
      ∧ e.code = ErrorCodes.INVALID_PARAMS :=
  handleExecuteQuery_invalid_params
    { query := .str "SELECT 1", params := .arr [.arr []] }
    (Or.inr ⟨[.arr []], rfl, .arr [], List.mem_singleton.mpr rfl, rfl⟩)
    true (fun _ => .ok "executed")

end DjPostgres
